import Mathlib

/-!
Verification of the signed-transaction protocol in `src/encode.js` of
seanghay/verifiable-transaction.

Shallow embedding notes:

* A JavaScript object is modelled by its ordered list of key/value pairs
  (`List (String × JVal)`), since `JSON.stringify` serializes keys in
  insertion order and is injective on such objects (keys and string values
  are quote-escaped, numbers have one canonical textual form).  The
  "canonical byte string" of the protocol is therefore identified with the
  ordered key/value list itself.
* `JVal.num` carries the canonical JavaScript textual representation of the
  number (e.g. `"10.2"`), since only that text enters the signed bytes.
* `JVal.time t` models a string that `new Date(...)` parses to the epoch
  millisecond value `t : Int` (in particular any `toISOString()` output,
  which round-trips exactly); `JVal.str` models strings that parse to an
  Invalid Date (NaN).  In JavaScript every comparison with NaN is false, so
  an unparseable `created_at` falls through the freshness check.
* Timestamps and the current date are `Int` epoch milliseconds.
* The RSA primitive is idealized: a signature is the pair of the signing
  key and the signed message, `crypto.verify` succeeds exactly when the
  signature was produced by the matching private key over the same bytes.
  A key pair is modelled by a shared `Nat` identifier.
* The `new Date()` read inside `verifyTransaction` (and inside
  `createTransaction` via `new Date().toISOString()`) is modelled as an
  explicit extra argument holding the clock value at the moment of the
  call.
* `Buffer.from(signature, "base64")` throws a `TypeError` when `signature`
  is `undefined` (the field is absent); on any actual string it is lenient,
  and `verifier.verify` then returns `false` for bytes that are not a valid
  signature.  The `signature` field of an object is therefore modelled as
  `Option (Option Sig)`: `none` = key absent, `some none` = a string that
  does not decode to any signature, `some (some s)` = a string decoding to
  candidate signature `s`.  Fallibility (the throw) is an `Except`.
-/

/-- A JSON value as it occurs in a transaction object (see the embedding
notes at the top of the file for the meaning of each constructor). -/
inductive JVal where
  | str : String → JVal
  | num : String → JVal
  | time : Int → JVal
deriving DecidableEq, Repr

/-- The canonical serialization of a signature-stripped transaction object:
its ordered key/value list (identified with the `JSON.stringify` bytes). -/
abbrev Msg := List (String × JVal)

/-- An idealized RSA signature: records the signing key and the exact bytes
that were signed. -/
structure Sig where
  key : Nat
  msg : Msg
deriving DecidableEq, Repr

/-- `signer.sign(privateKey)` over message bytes `m` (idealized). -/
def cryptoSign (privateKey : Nat) (m : Msg) : Sig :=
  ⟨privateKey, m⟩

/-- `verifier.verify(publicKey, sig)` over message bytes `m` (idealized):
succeeds exactly when `s` was produced with the matching private key over
the same bytes. -/
def cryptoVerify (publicKey : Nat) (s : Sig) (m : Msg) : Bool :=
  decide (s.key = publicKey ∧ s.msg = m)

/-- A JavaScript transaction object: the ordered non-`signature` keys, and
the value of the `signature` key when present (`none` = key absent,
`some none` = a string not decoding to a signature, `some (some s)` =
candidate signature `s`). -/
structure JsTx where
  fields : List (String × JVal)
  signature : Option (Option Sig)
deriving DecidableEq, Repr

/-- The one way `verifyTransaction` can throw: `Buffer.from(undefined,
"base64")` raises a `TypeError` when the `signature` field is absent. -/
inductive JsError where
  | typeError
deriving DecidableEq, Repr

/-- `const maximumWindowMs = 5 * 60 * 1000` in `verifyTransaction`
(a hardcoded constant of the source, not a parameter). -/
def maximumWindowMs : Int := 5 * 60 * 1000

/-- The object literal built inside `createTransaction`, with `created_at`
set from the clock reading (`new Date().toISOString()`), in source key
order. -/
def txValue (createdAt : Int) : Msg :=
  [("currency", JVal.str "USD"),
   ("amount", JVal.num "10.2"),
   ("remark", JVal.str "Payment for service"),
   ("created_at", JVal.time createdAt)]

/-- `createTransaction(privateKey)` from `src/encode.js`; `now` is the
`new Date()` clock reading at the call.  The object is serialized and
signed before the `signature` key is attached. -/
def createTransaction (privateKey : Nat) (now : Int) : JsTx :=
  { fields := txValue now
    signature := some (some (cryptoSign privateKey (txValue now))) }

/-- `new Date(v)` for a JSON value `v`: the epoch milliseconds, or `none`
for an Invalid Date (NaN). -/
def parseDate : JVal → Option Int
  | JVal.time t => some t
  | _ => none

/-- The tail of `verifyTransaction`: `verifier.verify(Buffer.from(publicKey),
Buffer.from(signature, "base64"))`.  Throws a `TypeError` when the
`signature` field is absent; returns `false` when the string does not decode
to a valid signature over `value`. -/
def checkSignature : Option (Option Sig) → Nat → Msg → Except JsError Bool
  | none, _, _ => Except.error JsError.typeError
  | some none, _, _ => Except.ok false
  | some (some s), publicKey, value => Except.ok (cryptoVerify publicKey s value)

/-- `verifyTransaction(transaction, publicKey)` from `src/encode.js`;
`currentDate` is the `new Date()` clock reading inside the call.  The
`signature` key is stripped, the rest re-serialized, the hardcoded
5-minute freshness check runs first (with NaN comparisons false), then the
cryptographic check. -/
def verifyTransaction (transaction : JsTx) (publicKey : Nat) (currentDate : Int) :
    Except JsError Bool :=
  let value := transaction.fields
  match (value.lookup "created_at").bind parseDate with
  | some created_at =>
      if maximumWindowMs ≤ currentDate - created_at then
        Except.ok false
      else
        checkSignature transaction.signature publicKey value
  | none => checkSignature transaction.signature publicKey value

/-- Modelled from the spec: `verify(signed_transaction, public_key, now,
max_age)` — the verifier the spec describes, identical to
`verifyTransaction` except that the freshness window is a fourth explicit
parameter instead of the hardcoded `maximumWindowMs`. -/
def verifySpecWindow (transaction : JsTx) (publicKey : Nat) (now maxAge : Int) :
    Except JsError Bool :=
  let value := transaction.fields
  match (value.lookup "created_at").bind parseDate with
  | some created_at =>
      if maxAge ≤ now - created_at then
        Except.ok false
      else
        checkSignature transaction.signature publicKey value
  | none => checkSignature transaction.signature publicKey value

/-- A candidate signature over bytes `m` never verifies against an object
whose stripped serialization differs from `m`: whichever branch the
freshness check takes, the outcome is `false`. -/
theorem verify_mismatched_signature (f : Msg) (k pk : Nat) (now : Int) (m : Msg)
    (hm : m ≠ f) :
    verifyTransaction ⟨f, some (some (cryptoSign k m))⟩ pk now = Except.ok false := by
  simp only [verifyTransaction]
  cases hlook : (f.lookup "created_at").bind parseDate with
  | none => simp [checkSignature, cryptoSign, cryptoVerify, hm]
  | some ca =>
      by_cases hcond : maximumWindowMs ≤ now - ca
      · simp [hlook, hcond]
      · simp [hlook, hcond, checkSignature, cryptoSign, cryptoVerify, hm]

/-- C1: signing with a private key and verifying the produced object with
the matching public key at any clock reading strictly within `maximumWindowMs`
of the transaction's `created_at` yields `true`. -/
theorem createTransaction_verify_roundtrip (k : Nat) (t now : Int)
    (h : now - t < maximumWindowMs) :
    verifyTransaction (createTransaction k t) k now = Except.ok true := by
  simp [verifyTransaction, createTransaction, txValue, List.lookup, parseDate,
    checkSignature, cryptoVerify, cryptoSign, not_le.mpr h]

/-- C1 witness: a concrete round trip, one millisecond after signing. -/
theorem createTransaction_verify_roundtrip_witness :
    verifyTransaction (createTransaction 7 1000) 7 1001 = Except.ok true :=
  createTransaction_verify_roundtrip 7 1000 1001 (by decide)

/-- C2: the signature attached by `createTransaction` was computed over
exactly the bytes the verifier re-serializes — the four transaction fields
in source order, with no `signature` key among them. -/
theorem signed_bytes_eq_verified_bytes (k : Nat) (t : Int) :
    ∃ s : Sig,
      (createTransaction k t).signature = some (some s) ∧
      s.msg = (createTransaction k t).fields ∧
      (createTransaction k t).fields.map Prod.fst =
        ["currency", "amount", "remark", "created_at"] ∧
      (createTransaction k t).fields.lookup "signature" = none :=
  ⟨cryptoSign k (txValue t), rfl, rfl, rfl, rfl⟩

/-- C3: for a correctly signed transaction, a clock reading strictly inside
the window verifies `true`, and one at or past the window returns `false`
(the `>=` comparison makes the boundary exactly at `maximumWindowMs`
expired). -/
theorem verify_expiry_boundary (k : Nat) (t now : Int) :
    (now - t < maximumWindowMs →
      verifyTransaction (createTransaction k t) k now = Except.ok true) ∧
    (maximumWindowMs ≤ now - t →
      verifyTransaction (createTransaction k t) k now = Except.ok false) := by
  constructor
  · intro h
    simp [verifyTransaction, createTransaction, txValue, List.lookup, parseDate,
      checkSignature, cryptoVerify, cryptoSign, not_le.mpr h]
  · intro h
    simp [verifyTransaction, createTransaction, txValue, List.lookup, parseDate, h]

/-- C3 witness: at exactly the five-minute boundary the outcome is `false`;
one millisecond earlier it is `true`. -/
theorem verify_expiry_boundary_witness :
    verifyTransaction (createTransaction 7 0) 7 300000 = Except.ok false ∧
    verifyTransaction (createTransaction 7 0) 7 299999 = Except.ok true :=
  ⟨(verify_expiry_boundary 7 0 300000).2 (by decide),
   (verify_expiry_boundary 7 0 299999).1 (by decide)⟩

/-- C9: any transaction object whose `created_at` parses to a time at least
`maximumWindowMs` before the clock reading is rejected with `false` by the
freshness branch alone — for every signature field value (absent, garbage,
or candidate) and every public key, and without throwing. -/
theorem verify_expired_ignores_signature (f : Msg) (sig : Option (Option Sig))
    (pk : Nat) (now t : Int)
    (hc : f.lookup "created_at" = some (JVal.time t))
    (h : maximumWindowMs ≤ now - t) :
    verifyTransaction ⟨f, sig⟩ pk now = Except.ok false := by
  simp [verifyTransaction, hc, parseDate, h]

/-- C9 witness: an expired transaction with the `signature` field absent
still returns `false` instead of throwing. -/
theorem verify_expired_ignores_signature_witness :
    (txValue 0).lookup "created_at" = some (JVal.time 0) ∧
    maximumWindowMs ≤ (300000 : Int) - 0 ∧
    verifyTransaction ⟨txValue 0, none⟩ 7 300000 = Except.ok false :=
  ⟨by decide, by decide,
   verify_expired_ignores_signature (txValue 0) none 7 300000 0 (by decide) (by decide)⟩

/-- C10: the freshness check has no lower bound — with `created_at` in the
future the elapsed time is negative, the time check passes, and the outcome
is decided by the signature check alone, so a future-dated correctly signed
transaction verifies `true`. -/
theorem verify_future_created_at (k : Nat) (t now : Int) (h : now < t)
    (sig : Option Sig) :
    verifyTransaction (createTransaction k t) k now = Except.ok true ∧
    verifyTransaction ⟨txValue t, some sig⟩ k now =
      Except.ok (match sig with
        | some s => cryptoVerify k s (txValue t)
        | none => false) := by
  have hlt : now - t < maximumWindowMs := by
    simp only [maximumWindowMs]
    omega
  constructor
  · simp [verifyTransaction, createTransaction, txValue, List.lookup, parseDate,
      checkSignature, cryptoVerify, cryptoSign, not_le.mpr hlt]
  · cases sig <;>
      simp [verifyTransaction, txValue, List.lookup, parseDate,
        checkSignature, not_le.mpr hlt]

/-- C10 witness: a transaction dated one second in the future verifies
`true`, and one with a garbage signature reaches the signature check and
returns `false`. -/
theorem verify_future_created_at_witness :
    verifyTransaction (createTransaction 5 1000) 5 0 = Except.ok true ∧
    verifyTransaction ⟨txValue 1000, some none⟩ 5 0 = Except.ok false :=
  verify_future_created_at 5 1000 0 (by decide) none

/-- C4 counterexample: the claim that no input makes verification throw is
false — an object with the four fields but no `signature` key, still inside
the freshness window, reaches `Buffer.from(undefined, "base64")` and raises
a `TypeError` instead of returning a `malformed_input` outcome (the
function's only return values are the undiscriminated booleans `true` and
`false`). -/
theorem verify_missing_signature_throws_cex :
    verifyTransaction ⟨txValue 0, none⟩ 1 0 = Except.error JsError.typeError :=
  rfl

/-- C4 amended: verification returns a bare boolean with no discriminated
failure reason; on an input whose `signature` field is absent it returns
`false` when the transaction is already expired (the freshness check runs
first) and otherwise throws a `TypeError`, which propagates to the host
process. -/
theorem verify_missing_signature_behavior (f : Msg) (pk : Nat) (now t : Int)
    (hc : f.lookup "created_at" = some (JVal.time t)) :
    verifyTransaction ⟨f, none⟩ pk now =
      if maximumWindowMs ≤ now - t then Except.ok false
      else Except.error JsError.typeError := by
  by_cases h : maximumWindowMs ≤ now - t <;>
    simp [verifyTransaction, hc, parseDate, checkSignature, h]

/-- C4 amended witness: a fresh transaction with the `signature` field
absent makes the verifier throw. -/
theorem verify_missing_signature_behavior_witness :
    (txValue 5).lookup "created_at" = some (JVal.time 5) ∧
    verifyTransaction ⟨txValue 5, none⟩ 1 5 = Except.error JsError.typeError :=
  ⟨by decide, by
    have h := verify_missing_signature_behavior (txValue 5) 1 5 5 (by decide)
    simpa using h⟩

/-- C5 counterexample: the claim that verification is a function of four
explicit inputs with a configurable `max_age` is false — the source's
`verifyTransaction` takes only `(transaction, publicKey)`; the third
argument of the embedding models the `new Date()` read inside the call, and
two invocations with identical JavaScript arguments return different
outcomes as the global clock advances, while the freshness window is the
hardcoded literal `5 * 60 * 1000`, not a parameter. -/
theorem verify_global_clock_and_constant_window_cex :
    verifyTransaction (createTransaction 1 0) 1 0 = Except.ok true ∧
    verifyTransaction (createTransaction 1 0) 1 300000 = Except.ok false ∧
    maximumWindowMs = 300000 :=
  ⟨rfl, rfl, rfl⟩

/-- C5 amended: verification is a deterministic function of the signed
transaction, the public key, and the clock value read inside the call; it
coincides with the spec's four-input verifier specialized at the hardcoded
window constant `maximumWindowMs = 5 * 60 * 1000` ms. -/
theorem verify_equals_spec_window_at_constant (transaction : JsTx)
    (pk : Nat) (now : Int) :
    verifyTransaction transaction pk now =
      verifySpecWindow transaction pk now maximumWindowMs ∧
    maximumWindowMs = 5 * 60 * 1000 :=
  ⟨rfl, rfl⟩

/-- Modelled from the spec: `sign(transaction_without_signature,
private_key)` — the signer the spec describes, which keeps the supplied
transaction's fields unchanged, sets `created_at` from the clock only when
it is absent, and attaches a signature over the resulting fields. -/
def signSpec (txFields : Msg) (privateKey : Nat) (now : Int) : JsTx :=
  let fields :=
    if txFields.lookup "created_at" = none then
      txFields ++ [("created_at", JVal.time now)]
    else txFields
  ⟨fields, some (some (cryptoSign privateKey fields))⟩

/-- A transaction a caller might supply to the spec's signer: its own field
values and a `created_at` already present. -/
def demoFields : Msg :=
  [("currency", JVal.str "KHR"),
   ("amount", JVal.num "99"),
   ("remark", JVal.str "coffee"),
   ("created_at", JVal.time 5)]

/-- C6 counterexample: `createTransaction` accepts no transaction argument
— whatever transaction the caller intended (here `demoFields`, with
`created_at` present and equal to 5), the code returns the fixed object
with `created_at` overwritten by the clock reading 7, diverging from the
spec's signer on the same inputs. -/
theorem createTransaction_ignores_input_cex :
    createTransaction 1 7 ≠ signSpec demoFields 1 7 ∧
    (createTransaction 1 7).fields.lookup "created_at" = some (JVal.time 7) ∧
    (signSpec demoFields 1 7).fields.lookup "created_at" = some (JVal.time 5) := by
  refine ⟨?_, rfl, rfl⟩
  intro h
  exact absurd (congrArg (fun tx => tx.fields.lookup "currency") h) (by decide)

/-- C6 amended: the signer takes only a private key (plus the clock it
reads); it always returns the fixed fields `currency = "USD"`,
`amount = 10.2`, `remark = "Payment for service"`, unconditionally sets
`created_at` to the current time, and attaches a signature over exactly
those four fields. -/
theorem createTransaction_fixed_fields (k : Nat) (t : Int) :
    (createTransaction k t).fields.lookup "currency" = some (JVal.str "USD") ∧
    (createTransaction k t).fields.lookup "amount" = some (JVal.num "10.2") ∧
    (createTransaction k t).fields.lookup "remark" =
      some (JVal.str "Payment for service") ∧
    (createTransaction k t).fields.lookup "created_at" = some (JVal.time t) ∧
    (createTransaction k t).signature = some (some (cryptoSign k (txValue t))) :=
  ⟨rfl, rfl, rfl, rfl, rfl⟩

/-- The same four field values as `txValue`, with the first two keys
inserted in the opposite order. -/
def txValueSwapped (createdAt : Int) : Msg :=
  [("amount", JVal.num "10.2"),
   ("currency", JVal.str "USD"),
   ("remark", JVal.str "Payment for service"),
   ("created_at", JVal.time createdAt)]

/-- C7 counterexample: serialization follows insertion order, so two
representations of the same field values with different key orders produce
different canonical byte strings, and a signature computed over one order
fails to verify against the other even inside the freshness window. -/
theorem canonical_order_dependent_cex :
    txValue 0 ≠ txValueSwapped 0 ∧
    verifyTransaction ⟨txValueSwapped 0, some (some (cryptoSign 1 (txValue 0)))⟩ 1 0 =
      Except.ok false := by
  refine ⟨by decide, ?_⟩
  rfl

/-- C7 amended: canonicalization serializes fields in the object's
insertion order, not a fixed total order: the verifier accepts a valid
signature only when it receives the keys in the signer's insertion order,
and rejects the same field values presented in a different order. -/
theorem canonical_insertion_order (k : Nat) (t now : Int)
    (h : now - t < maximumWindowMs) :
    verifyTransaction ⟨txValue t, some (some (cryptoSign k (txValue t)))⟩ k now =
      Except.ok true ∧
    verifyTransaction ⟨txValueSwapped t, some (some (cryptoSign k (txValue t)))⟩ k now =
      Except.ok false := by
  constructor
  · simp [verifyTransaction, txValue, List.lookup, parseDate,
      checkSignature, cryptoVerify, cryptoSign, not_le.mpr h]
  · exact verify_mismatched_signature _ k k now _ (by simp [txValue, txValueSwapped])

/-- C7 amended witness: a concrete valid signature accepted in the signer's
key order and rejected in the swapped order. -/
theorem canonical_insertion_order_witness :
    verifyTransaction ⟨txValue 0, some (some (cryptoSign 3 (txValue 0)))⟩ 3 0 =
      Except.ok true ∧
    verifyTransaction ⟨txValueSwapped 0, some (some (cryptoSign 3 (txValue 0)))⟩ 3 0 =
      Except.ok false :=
  canonical_insertion_order 3 0 0 (by decide)

/-- Replace the value stored under `key`, keeping every key in place. -/
def setField (f : Msg) (key : String) (v : JVal) : Msg :=
  f.map fun kv => if kv.1 = key then (key, v) else kv

/-- C8: take the object produced by `createTransaction` and change the
value of any one of `currency`, `amount`, `remark`, `created_at` before
verification, leaving the signature unchanged: verification returns
`false` for every public key and every clock reading. -/
theorem verify_tamper_detection (k pk : Nat) (t now : Int) (key : String)
    (v : JVal)
    (hkey : key ∈ ["currency", "amount", "remark", "created_at"])
    (hne : (txValue t).lookup key ≠ some v) :
    verifyTransaction
      ⟨setField (txValue t) key v, some (some (cryptoSign k (txValue t)))⟩ pk now =
      Except.ok false := by
  simp only [List.mem_cons, List.not_mem_nil, or_false] at hkey
  rcases hkey with rfl | rfl | rfl | rfl <;>
    · apply verify_mismatched_signature
      intro heq
      apply hne
      simp [txValue, setField] at heq
      simp [txValue, List.lookup, heq]

/-- C8 witness: changing `amount` from `10.2` to `999` on a freshly signed
transaction makes verification with the matching key return `false`. -/
theorem verify_tamper_detection_witness :
    ("amount" ∈ ["currency", "amount", "remark", "created_at"]) ∧
    ((txValue 0).lookup "amount" ≠ some (JVal.num "999")) ∧
    verifyTransaction
      ⟨setField (txValue 0) "amount" (JVal.num "999"),
       some (some (cryptoSign 3 (txValue 0)))⟩ 3 0 =
      Except.ok false :=
  ⟨by decide, by decide,
   verify_tamper_detection 3 3 0 0 "amount" (JVal.num "999") (by decide) (by decide)⟩
